import Mathlib

/-!
Shallow embedding of `examples/plugins/builder-plugin-security/src/main.rs`
(the security-scanner plugin of the Builder repository), together with
theorems checking the specification's claims about it.

Rust string primitives (`str::split`, `str::contains`, `str::trim`,
`str::ends_with`, `str::lines`) are modelled as executable functions over
`List Char`, mirroring the Rust semantics (non-overlapping leftmost pattern
matches, etc.).

Effects are made explicit:
  * the file system is a function `String → Option String` (path ↦ contents;
    `none` models a missing or unreadable file);
  * the system clock read by the plugin's `rand` module is an oracle
    `clock : Nat → Nat` giving the nanosecond value observed at the k-th
    vulnerability check of a scan;
  * the outcome of the report-file write (`fs::write`) is a `Bool` parameter.
-/

namespace BuilderSecurity

/-! ### Rust string primitives over `List Char` -/

/-- Rust `str::split(sep)` for a single-character separator:
non-overlapping, leftmost-first matches. The result is always nonempty. -/
def splitOnChar (sep : Char) : List Char → List (List Char)
  | [] => [[]]
  | c :: rest =>
    if c == sep then
      [] :: splitOnChar sep rest
    else
      match splitOnChar sep rest with
      | f :: fs => (c :: f) :: fs
      | [] => [[c]]

/-- Rust `str::split(pat)` for a two-character pattern `[c1, c2]`:
non-overlapping, leftmost-first matches (so `"====".split("==")` has three
empty fields and `"a===b".split("==")` is `["a", "=b"]`). -/
def splitOnTwo (c1 c2 : Char) : List Char → List (List Char)
  | [] => [[]]
  | [c] => [[c]]
  | c :: d :: rest =>
    if c == c1 && d == c2 then
      [] :: splitOnTwo c1 c2 rest
    else
      match splitOnTwo c1 c2 (d :: rest) with
      | f :: fs => (c :: f) :: fs
      | [] => [[c]]

/-- Rust `line.split("==").collect::<Vec<_>>()` on strings. -/
def strSplitEq (s : String) : List String :=
  (splitOnTwo '=' '=' s.data).map List.asString

/-- Rust `str::contains(pat)` (substring containment). -/
def containsAux (pat : List Char) : List Char → Bool
  | [] => pat.isEmpty
  | c :: rest => pat.isPrefixOf (c :: rest) || containsAux pat rest

/-- Rust `str::contains(pat)` on strings. -/
def strContains (s pat : String) : Bool :=
  containsAux pat.data s.data

/-- Rust `str::trim()` (strip leading and trailing whitespace). -/
def rustTrim (s : String) : String :=
  (((s.data.dropWhile Char.isWhitespace).reverse.dropWhile Char.isWhitespace).reverse).asString

/-- Rust `str::ends_with(pat)`. -/
def rustEndsWith (s pat : String) : Bool :=
  pat.data.isSuffixOf s.data

/-- Rust `str::lines()`: split at newlines, drop a final empty field coming
from a trailing newline, strip a trailing carriage return from each line. -/
def rustLines (s : String) : List String :=
  let parts := splitOnChar '\n' s.data
  let parts := if parts.getLast? = some [] then parts.dropLast else parts
  parts.map (fun l => (if ['\r'].isSuffixOf l then l.dropLast else l).asString)

/-! ### Data model (`struct Vulnerability`) -/

/-- `struct Vulnerability` from the plugin source. -/
structure Vulnerability where
  id : String
  severity : String
  package : String
  version : String
  description : String
  fixed_in : Option String
deriving Repr, DecidableEq

/-! ### `check_vulnerability` -/

/-- The hardcoded vulnerability table `known_vulnerable` from
`check_vulnerability`: (package, version, severity, description, fixed_in). -/
def known_vulnerable : List (String × String × String × String × Option String) :=
  [("lodash", "4.17.15", "HIGH", "Prototype pollution", some "4.17.21"),
   ("django", "2.2.0", "CRITICAL", "SQL injection vulnerability", some "2.2.24"),
   ("express", "4.16.0", "MEDIUM", "Open redirect vulnerability", some "4.17.1"),
   ("requests", "2.25.0", "LOW", "Information disclosure", some "2.26.0")]

/-- The advisory id the plugin fabricates:
`format!("CVE-2021-{}", rand::random::<u16>() % 10000)`, where the `rand`
module returns the current clock nanoseconds cast to `u16`
(`% 2^16`), then reduced `% 10000`. -/
def mkCveId (nanos : Nat) : String :=
  "CVE-2021-" ++ Nat.repr (nanos % 65536 % 10000)

/-- The loop body of `check_vulnerability`: walk the table, return the first
entry whose package name is CONTAINED in the dependency's name and whose
version equals the declared version. -/
def checkAgainst (nanos : Nat) (package version : String) :
    List (String × String × String × String × Option String) → Option Vulnerability
  | [] => none
  | (pkg, ver, sev, desc, fixed) :: rest =>
    if strContains package pkg && version == ver then
      some ⟨mkCveId nanos, sev, package, version, desc, fixed⟩
    else
      checkAgainst nanos package version rest

/-- `SecurityScanner::check_vulnerability`, with the clock value read by
`rand::random` made an explicit argument. -/
def check_vulnerability (package version : String) (nanos : Nat) : Option Vulnerability :=
  checkAgainst nanos package version known_vulnerable

/-! ### `parse_dependency_line` and `extract_dependencies` -/

/-- `SecurityScanner::parse_dependency_line`: trim, and when the line
contains `==` and splits on `==` into exactly two parts, return them. -/
def parse_dependency_line (line : String) : Option (String × String) :=
  let t := rustTrim line
  if strContains t "==" then
    match strSplitEq t with
    | [name, version] => some (name, version)
    | _ => none
  else
    none

/-- `Path::new(root).join(file)` (modelled for relative `file`). -/
def joinPath (root file : String) : String := root ++ "/" ++ file

/-- `SecurityScanner::extract_dependencies`: read the dependency file under
the workspace root (missing/unreadable file gives no dependencies) and parse
each line. -/
def extract_dependencies (fs : String → Option String) (workspace_root file_path : String) :
    List (String × String) :=
  match fs (joinPath workspace_root file_path) with
  | none => []
  | some content => (rustLines content).filterMap parse_dependency_line

/-! ### `scan_for_vulnerabilities` -/

/-- The dependency-file suffix filter of `scan_for_vulnerabilities`. -/
def isDepFile (source : String) : Bool :=
  rustEndsWith source "requirements.txt" || rustEndsWith source "package.json" ||
  rustEndsWith source "Cargo.toml" || rustEndsWith source "go.mod"

/-- The `severity_order` ranking closure used by the sort in
`scan_for_vulnerabilities`. -/
def severity_order (s : String) : Nat :=
  if s = "CRITICAL" then 0
  else if s = "HIGH" then 1
  else if s = "MEDIUM" then 2
  else if s = "LOW" then 3
  else 4

/-- The comparator of `vulnerabilities.sort_by(...)` as a `Bool` relation. -/
def sevLe (a b : Vulnerability) : Bool :=
  severity_order a.severity ≤ severity_order b.severity

/-- The unsorted vulnerability list collected by the loops of
`scan_for_vulnerabilities`: for each dependency-file source, extract its
dependencies and check each against the table; the k-th check overall reads
clock value `clock k`. -/
def matchesOfSources (fs : String → Option String) (clock : Nat → Nat)
    (workspace_root : String) (sources : List String) : List Vulnerability :=
  let deps := (sources.filter isDepFile).flatMap (extract_dependencies fs workspace_root)
  deps.enum.filterMap (fun p => check_vulnerability p.2.1 p.2.2 (clock p.1))

/-- `SecurityScanner::scan_for_vulnerabilities`: collect matches, then
`sort_by` severity rank (Rust's `sort_by` is stable; `List.mergeSort` is the
stable sort with the same comparator). -/
def scan_for_vulnerabilities (fs : String → Option String) (clock : Nat → Nat)
    (workspace_root : String) (sources : List String) : List Vulnerability :=
  (matchesOfSources fs clock workspace_root sources).mergeSort sevLe

/-! ### `generate_report` -/

/-- Key lookup in the `updates` map (its value for a package). -/
def lookupUpdate : List (String × String) → String → Option String
  | [], _ => none
  | e :: rest, p => if e.1 == p then some e.2 else lookupUpdate rest p

/-- Key-presence test in the `updates` map (`HashMap::entry` hitting an
occupied entry). -/
def hasKey : List (String × String) → String → Bool
  | [], _ => false
  | e :: rest, p => e.1 == p || hasKey rest p

/-- The recommendation loop of `generate_report`:
`updates.entry(vuln.package).or_insert_with(|| fixed)` — the first
vulnerability (in the given order) carrying a `fixed_in` wins for each
package. The `HashMap` is modelled as an association list in insertion
order. -/
def buildUpdatesGo : List Vulnerability → List (String × String) → List (String × String)
  | [], updates => updates
  | v :: rest, updates =>
    buildUpdatesGo rest
      (match v.fixed_in with
       | some fixed => if hasKey updates v.package then updates else updates ++ [(v.package, fixed)]
       | none => updates)

/-- The `updates` map built by `generate_report` from the scanner's
vulnerability list. -/
def buildUpdates (vulns : List Vulnerability) : List (String × String) :=
  buildUpdatesGo vulns []

/-- The path `workspace_root/.builder-cache/security-report.json`. -/
def reportPath (workspace_root : String) : String :=
  joinPath (joinPath workspace_root ".builder-cache") "security-report.json"

/-- `SecurityScanner::generate_report`, producing the report log lines.
`writeOk` is the outcome of `fs::write(&report_path, report_json)`; the
source discards it (`let _ = fs::write(...)`), and
`serde_json::to_string_pretty` on the vulnerability list always succeeds. -/
def generate_report (workspace_root : String) (vulns : List Vulnerability)
    (writeOk : Bool) : List String :=
  let logs := ["\n[Security] Scan Report:"]
  if vulns.isEmpty then
    logs ++ ["  ✓ No vulnerabilities detected"]
  else
    let logs := logs ++ ["  Total vulnerabilities: " ++ Nat.repr vulns.length]
    let logs := logs ++ ["\n  Recommendations:"]
    let updates := buildUpdates vulns
    let logs :=
      if updates.isEmpty then logs
      else
        logs ++ ["  Update the following packages:"] ++
          updates.map (fun e => "    - " ++ e.1 ++ " to " ++ e.2)
    let _ := writeOk
    logs ++ ["\n  Detailed report saved: " ++ reportPath workspace_root]

/-! ### `scan_dependencies` (scan plus its log lines) -/

/-- Count of vulnerabilities with a given severity (the tally loop of
`scan_dependencies`). -/
def countSev (vulns : List Vulnerability) (s : String) : Nat :=
  (vulns.filter (fun v => v.severity == s)).length

/-- The "Top vulnerabilities" listing (first five, with their fix lines). -/
def topVulnLogs (vulns : List Vulnerability) : List String :=
  (vulns.take 5).enum.flatMap (fun p =>
    ("    " ++ Nat.repr (p.1 + 1) ++ ". " ++ p.2.id ++ " - " ++ p.2.package ++
      " (" ++ p.2.severity ++ ")") ::
    (match p.2.fixed_in with
     | some fixed => ["       Fixed in: " ++ fixed]
     | none => []))

/-- `SecurityScanner::scan_dependencies`: runs the scan and returns the log
lines together with the vulnerability list stored in the scanner
(`load_vulnerability_db` is a no-op in the source). -/
def scan_dependencies (fs : String → Option String) (clock : Nat → Nat)
    (workspace_root : String) (sources : List String) :
    List String × List Vulnerability :=
  let logs := ["[Security] Starting dependency vulnerability scan",
               "  Scanning " ++ Nat.repr sources.length ++ " source files"]
  let found := scan_for_vulnerabilities fs clock workspace_root sources
  let logs := logs ++
    (if found.isEmpty then ["  ✓ No known vulnerabilities found"]
     else
       ["  ⚠ Found " ++ Nat.repr found.length ++ " vulnerabilities"] ++
       (let critical := countSev found "CRITICAL"
        let high := countSev found "HIGH"
        let medium := countSev found "MEDIUM"
        let low := countSev found "LOW"
        (if critical > 0 then ["    ⛔ Critical: " ++ Nat.repr critical] else []) ++
        (if high > 0 then ["    ⚠️  High: " ++ Nat.repr high] else []) ++
        (if medium > 0 then ["    ⚡ Medium: " ++ Nat.repr medium] else []) ++
        (if low > 0 then ["    ℹ️  Low: " ++ Nat.repr low] else [])) ++
       ["\n  Top vulnerabilities:"] ++ topVulnLogs found)
  (logs, found)

/-! ### JSON values and the request handlers -/

/-- `serde_json::Value`, with numbers restricted to the integers (the only
numbers this plugin produces or inspects; `as_i64` rejects non-integers). -/
inductive Json where
  | null
  | bool (b : Bool)
  | num (n : Int)
  | str (s : String)
  | arr (elems : List Json)
  | obj (fields : List (String × Json))

/-- `Value::get(key)`: `Some` field value on objects, `None` otherwise. -/
def Json.get : Json → String → Option Json
  | .obj fields, key => (fields.find? (fun f => f.1 == key)).map (fun f => f.2)
  | _, _ => none

/-- `value[key]` (`Index<&str>` for `Value`): the field value, or `Null`
when the key is absent or the value is not an object. -/
def Json.index (j : Json) (key : String) : Json :=
  (j.get key).getD Json.null

/-- `Value::as_str`. -/
def Json.asStr : Json → Option String
  | .str s => some s
  | _ => none

/-- `Value::as_i64`: integers representable in `i64`. -/
def Json.asI64 : Json → Option Int
  | .num n => if -(2 ^ 63) ≤ n ∧ n < 2 ^ 63 then some n else none
  | _ => none

/-- `Value::as_array`. -/
def Json.asArr : Json → Option (List Json)
  | .arr elems => some elems
  | _ => none

/-- `error_response` from the plugin source. -/
def error_response (id : Int) (code : Int) (message : String) : Json :=
  Json.obj [("jsonrpc", Json.str "2.0"), ("id", Json.num id),
    ("error", Json.obj [("code", Json.num code), ("message", Json.str message)])]

/-- The `{"success": true, "logs": [...]}` response shape shared by the two
hook handlers. -/
def success_response (id : Int) (logs : List String) : Json :=
  Json.obj [("jsonrpc", Json.str "2.0"), ("id", Json.num id),
    ("result", Json.obj [("success", Json.bool true),
                         ("logs", Json.arr (logs.map Json.str))])]

/-- `handle_info` from the plugin source. -/
def handle_info (id : Int) : Json :=
  Json.obj [("jsonrpc", Json.str "2.0"), ("id", Json.num id),
    ("result", Json.obj [
      ("name", Json.str "security"),
      ("version", Json.str "1.0.0"),
      ("author", Json.str "Griffin"),
      ("description", Json.str "Dependency vulnerability scanner"),
      ("homepage", Json.str "https://github.com/GriffinCanCode/Builder"),
      ("capabilities", Json.arr [Json.str "build.pre_hook", Json.str "build.post_hook"]),
      ("minBuilderVersion", Json.str "1.0.0"),
      ("license", Json.str "MIT")])]

/-- The log lines built by `handle_pre_hook`: when `params`, its `target`
and its `workspace` are all present, run the scan and append the scan and
report logs; otherwise only the initialization line. -/
def pre_hook_logs (fs : String → Option String) (clock : Nat → Nat) (writeOk : Bool)
    (params : Option Json) : List String :=
  let logs := ["[Security] Initializing security scan"]
  match params with
  | some p =>
    match p.get "target", p.get "workspace" with
    | some target, some workspace =>
      let sources :=
        (((target.get "sources").bind Json.asArr).map
          (fun elems => elems.filterMap Json.asStr)).getD []
      let workspace_root := ((workspace.get "root").bind Json.asStr).getD "."
      let scanned := scan_dependencies fs clock workspace_root sources
      logs ++ scanned.1 ++ generate_report workspace_root scanned.2 writeOk
    | _, _ => logs
  | none => logs

/-- `handle_pre_hook` from the plugin source. -/
def handle_pre_hook (fs : String → Option String) (clock : Nat → Nat) (writeOk : Bool)
    (id : Int) (params : Option Json) : Json :=
  success_response id (pre_hook_logs fs clock writeOk params)

/-- `handle_post_hook` from the plugin source. -/
def handle_post_hook (id : Int) (_params : Option Json) : Json :=
  success_response id
    ["[Security] Post-build security check complete",
     "  ✓ Security scan artifacts saved"]

/-- `handle_request` from the plugin source: dispatch on the `method` field
(`""` when missing or not a string), echoing the `id` field (`0` when
missing or not an `i64` integer). -/
def handle_request (fs : String → Option String) (clock : Nat → Nat) (writeOk : Bool)
    (request : Json) : Json :=
  let method := ((request.index "method").asStr).getD ""
  let id := ((request.index "id").asI64).getD 0
  let params := request.get "params"
  if method = "plugin.info" then handle_info id
  else if method = "build.pre_hook" then handle_pre_hook fs clock writeOk id params
  else if method = "build.post_hook" then handle_post_hook id params
  else error_response id (-32601) "Method not found"

/-! ### Spec-side definitions (from the specification's words, for the
claims that compare the code with the spec's idealized behaviour) -/

/-- Modelled from the spec: parse a dotted numeric version string into its
numeric components (semantic-version components). -/
def specSemverParts (s : String) : List Nat :=
  (splitOnChar '.' s.data).map
    (fun cs => cs.foldl (fun n c => n * 10 + (c.toNat - 48)) 0)

/-- Modelled from the spec: strict semantic-version ordering on component
lists (componentwise, a strict prefix is smaller). -/
def specListLt : List Nat → List Nat → Bool
  | [], [] => false
  | [], _ :: _ => true
  | _ :: _, [] => false
  | a :: as, b :: bs => a < b || (a == b && specListLt as bs)

/-- Modelled from the spec: "semantic-version ordering, not string
ordering" on version strings (so "2.9" < "2.10"). -/
def specSemverLt (a b : String) : Bool :=
  specListLt (specSemverParts a) (specSemverParts b)

/-- Modelled from the spec: the maximum `fixed_in` version among a
package's matches under semantic-version ordering (`none` when no match
for the package carries a `fixed_in`). -/
def specMaxFixedIn (vulns : List Vulnerability) (p : String) : Option String :=
  (vulns.filterMap (fun v => if v.package == p then v.fixed_in else none)).foldl
    (fun acc f =>
      match acc with
      | none => some f
      | some g => if specSemverLt g f then some f else some g)
    none

/-- Modelled from the spec: strict lexicographic order on character
lists (by code point), i.e. the byte-lexicographic order Rust uses on
package-name strings. -/
def specCharsLt : List Char → List Char → Bool
  | [], [] => false
  | [], _ :: _ => true
  | _ :: _, [] => false
  | c :: cs, d :: ds => c.toNat < d.toNat || (c == d && specCharsLt cs ds)

/-- Modelled from the spec: "package name lexicographically" — strict
lexicographic order on strings. -/
def specStrLt (a b : String) : Bool :=
  specCharsLt a.data b.data

/-- Modelled from the spec: the claimed sort key — severity rank, then
package name lexicographically, then advisory id. -/
def specKeyLe (a b : Vulnerability) : Bool :=
  severity_order a.severity < severity_order b.severity ||
    (severity_order a.severity == severity_order b.severity &&
      (specStrLt a.package b.package ||
        (a.package == b.package && (specStrLt a.id b.id || a.id == b.id))))

/-- Modelled from the spec: "sorted by the fixed severity rank, ties broken
by package name then advisory id". -/
def sortedBySpec (l : List Vulnerability) : Prop :=
  l.Pairwise (fun a b => specKeyLe a b = true)

instance (l : List Vulnerability) : Decidable (sortedBySpec l) := by
  unfold sortedBySpec
  infer_instance

/-- `fixed_in` of the first vulnerability in the list, in order, whose
package is `p` and which carries a `fixed_in` value. -/
def firstFix : List Vulnerability → String → Option String
  | [], _ => none
  | v :: rest, p =>
    if v.package == p && v.fixed_in.isSome then v.fixed_in else firstFix rest p

/-! ### Concrete scan fixtures used by witnesses and counterexamples -/

/-- A workspace whose only file is `./requirements.txt` with the given
contents. -/
def fsWith (content : String) : String → Option String :=
  fun path => if path = "./requirements.txt" then some content else none

/-- An empty workspace. -/
def emptyFs : String → Option String := fun _ => none

/-- A clock stuck at 0. -/
def zeroClock : Nat → Nat := fun _ => 0

/-- Two dependencies named `lodash-django`: one hits the django table row
(CRITICAL, fixed 2.2.24), the other the lodash row (HIGH, fixed 4.17.21). -/
def fsMixed : String → Option String :=
  fsWith "lodash-django==2.2.0\nlodash-django==4.17.15"

/-- Two equal-severity dependencies whose package names are in reverse
lexicographic order. -/
def fsTie : String → Option String :=
  fsWith "z-lodash==4.17.15\na-lodash==4.17.15"

/-- The spec's worked example: `lodash` pinned to the vulnerable 4.17.15. -/
def fsLodashOld : String → Option String :=
  fsWith "lodash==4.17.15"

/-- The spec's boundary example: `lodash` pinned to the fixed 4.17.21. -/
def fsLodashFixed : String → Option String :=
  fsWith "lodash==4.17.21"

/-- A sample vulnerability record (the lodash table row as matched for the
dependency `lodash==4.17.15`, with clock value 0). -/
def vulnEx : Vulnerability :=
  ⟨"CVE-2021-0", "HIGH", "lodash", "4.17.15", "Prototype pollution", some "4.17.21"⟩

/-- A request whose `method` is none of the three supported methods. -/
def reqUnknown : Json :=
  Json.obj [("method", Json.str "frobnicate"), ("id", Json.num 7)]

/-! ## Helper lemmas (shared) -/

theorem lookupUpdate_append_of_none {acc : List (String × String)} {p : String}
    (h : lookupUpdate acc p = none) (k x : String) :
    lookupUpdate (acc ++ [(k, x)]) p = if k == p then some x else none := by
  induction acc with
  | nil => rfl
  | cons e rest ih =>
    by_cases he : e.1 == p
    · simp [lookupUpdate, he] at h
    · simp only [List.cons_append, lookupUpdate, he, if_false] at h ⊢
      exact ih h

theorem lookupUpdate_append_of_some {acc : List (String × String)} {p s : String}
    (h : lookupUpdate acc p = some s) (k x : String) :
    lookupUpdate (acc ++ [(k, x)]) p = some s := by
  induction acc with
  | nil => simp [lookupUpdate] at h
  | cons e rest ih =>
    by_cases he : e.1 == p
    · simp only [lookupUpdate, he, if_true] at h ⊢
      simpa using h
    · simp only [lookupUpdate, he, if_false] at h
      simp only [List.cons_append, lookupUpdate, he, if_false]
      exact ih h

theorem lookupUpdate_eq_none_of_hasKey_false {acc : List (String × String)} {p : String}
    (h : hasKey acc p = false) : lookupUpdate acc p = none := by
  induction acc with
  | nil => rfl
  | cons e rest ih =>
    simp only [hasKey, Bool.or_eq_false_iff] at h
    simp only [lookupUpdate, h.1, if_false]
    exact ih h.2

theorem lookupUpdate_isSome_of_hasKey {acc : List (String × String)} {p : String}
    (h : hasKey acc p = true) : ∃ s, lookupUpdate acc p = some s := by
  induction acc with
  | nil => simp [hasKey] at h
  | cons e rest ih =>
    by_cases he : e.1 == p
    · exact ⟨e.2, by simp [lookupUpdate, he]⟩
    · simp only [hasKey, he, Bool.false_or] at h
      simpa [lookupUpdate, he] using ih h

/-- `buildUpdatesGo` never removes or overwrites an existing binding. -/
theorem buildUpdatesGo_preserves {vulns : List Vulnerability} :
    ∀ {acc : List (String × String)} {p s : String}, lookupUpdate acc p = some s →
      lookupUpdate (buildUpdatesGo vulns acc) p = some s := by
  induction vulns with
  | nil => intro acc p s h; exact h
  | cons v rest ih =>
    intro acc p s h
    simp only [buildUpdatesGo]
    cases hv : v.fixed_in with
    | none => exact ih h
    | some fixed =>
      by_cases hk : hasKey acc v.package
      · simp only [hk, if_true]
        exact ih h
      · simp only [hk, Bool.false_eq_true, if_false]
        exact ih (lookupUpdate_append_of_some h v.package fixed)

/-- When a package is still unbound, `buildUpdatesGo` binds it to the first
`fixed_in` carried by a vulnerability of that package. -/
theorem buildUpdatesGo_lookup {vulns : List Vulnerability} :
    ∀ {acc : List (String × String)} {p : String}, lookupUpdate acc p = none →
      lookupUpdate (buildUpdatesGo vulns acc) p = firstFix vulns p := by
  induction vulns with
  | nil => intro acc p h; exact h
  | cons v rest ih =>
    intro acc p h
    simp only [buildUpdatesGo]
    cases hv : v.fixed_in with
    | none =>
      rw [ih h]
      simp [firstFix, hv]
    | some fixed =>
      by_cases hp : v.package == p
      · have hp' : v.package = p := by simpa using hp
        by_cases hk : hasKey acc v.package
        · rcases lookupUpdate_isSome_of_hasKey (hp' ▸ hk) with ⟨s, hs⟩
          rw [hs] at h
          exact absurd h (by simp)
        · simp only [hk, Bool.false_eq_true, if_false]
          have hacc' : lookupUpdate (acc ++ [(v.package, fixed)]) p = some fixed := by
            rw [lookupUpdate_append_of_none h v.package fixed, if_pos hp]
          rw [buildUpdatesGo_preserves hacc']
          simp [firstFix, hp, hv]
      · have hstep : firstFix (v :: rest) p = firstFix rest p := by
          simp [firstFix, hp]
        rw [hstep]
        by_cases hk : hasKey acc v.package
        · simp only [hk, if_true]
          exact ih h
        · simp only [hk, Bool.false_eq_true, if_false]
          have hacc' : lookupUpdate (acc ++ [(v.package, fixed)]) p = none := by
            rw [lookupUpdate_append_of_none h v.package fixed, if_neg hp]
          exact ih hacc'

section ScanEvaluation

attribute [local semireducible] List.mergeSort List.merge

/-! ## Claim C1 -/

/-- C1, counterexample: the report generator's suggestion is NOT the
semantic-version maximum of the matched `fixed_in` values. Scanning two
`lodash-django` pins, the matches carry `fixed_in` values `2.2.24`
(django row, CRITICAL) and `4.17.21` (lodash row, HIGH); the suggestion is
the first one in severity-sorted order (`2.2.24`), while the
semantic-version maximum is `4.17.21`. -/
theorem c1_suggestion_not_semver_max :
    lookupUpdate
        (buildUpdates (scan_for_vulnerabilities fsMixed zeroClock "." ["requirements.txt"]))
        "lodash-django" = some "2.2.24" ∧
      specMaxFixedIn (scan_for_vulnerabilities fsMixed zeroClock "." ["requirements.txt"])
        "lodash-django" = some "4.17.21" ∧
      lookupUpdate
          (buildUpdates (scan_for_vulnerabilities fsMixed zeroClock "." ["requirements.txt"]))
          "lodash-django" ≠
        specMaxFixedIn (scan_for_vulnerabilities fsMixed zeroClock "." ["requirements.txt"])
          "lodash-django" := by
  refine ⟨by decide, by decide, by decide⟩

/-- C1, amended: for every package, the suggestion in the `updates` map
built by `generate_report` equals the `fixed_in` of the FIRST vulnerability
(in the severity-sorted list handed to the report generator) for that
package that carries a `fixed_in` value — not the semantic-version maximum. -/
theorem c1_suggestion_is_first_fix (vulns : List Vulnerability) (p : String) :
    lookupUpdate (buildUpdates vulns) p = firstFix vulns p :=
  buildUpdatesGo_lookup rfl

/-! ## Claim C2 -/

/-- C2, counterexample: the scan output is NOT sorted with ties broken by
package name: two equal-severity (HIGH) matches come out in input order
`z-lodash`, `a-lodash`, violating the claimed package-name tie-break. -/
theorem c2_output_not_tiebroken :
    ¬ sortedBySpec (scan_for_vulnerabilities fsTie zeroClock "." ["requirements.txt"]) := by
  decide

/-- C2, amended: the scan output is sorted by the fixed severity rank
{CRITICAL=0, HIGH=1, MEDIUM=2, LOW=3, unknown=4} ONLY (the comparator
consults nothing else), and is a permutation of the collected matches;
equal-rank matches are not reordered by any package-name or advisory-id
tie-break. -/
theorem c2_output_sorted_by_severity (fs : String → Option String) (clock : Nat → Nat)
    (workspace_root : String) (sources : List String) :
    (scan_for_vulnerabilities fs clock workspace_root sources).Pairwise
        (fun a b => severity_order a.severity ≤ severity_order b.severity) ∧
      (scan_for_vulnerabilities fs clock workspace_root sources).Perm
        (matchesOfSources fs clock workspace_root sources) := by
  constructor
  · have h := @List.sorted_mergeSort Vulnerability sevLe
      (fun a b c hab hbc => by
        simp only [sevLe, decide_eq_true_eq] at hab hbc ⊢
        omega)
      (fun a b => by
        simp only [sevLe, Bool.or_eq_true, decide_eq_true_eq]
        omega)
      (matchesOfSources fs clock workspace_root sources)
    simpa only [sevLe, decide_eq_true_eq] using h
  · exact List.mergeSort_perm _ _

/-! ## Claim C3 -/

/-- C3 (the code bug): the scan is NOT deterministic and advisory ids do
NOT come from the dataset — `check_vulnerability` fabricates the id from
the system clock, so checking the same dependency `lodash==4.17.15` at two
different clock readings yields different results. -/
theorem c3_check_depends_on_clock :
    check_vulnerability "lodash" "4.17.15" 1 ≠ check_vulnerability "lodash" "4.17.15" 2 := by
  decide

/-! ## Claim C4 -/

/-- C4, counterexample: `xlodash` is not one of the four package names of
the vulnerability table, yet the check reports a vulnerability for it
(matching is by substring containment, and `xlodash` contains `lodash`). -/
theorem c4_unlisted_package_matches :
    "xlodash" ∉ (["lodash", "django", "express", "requests"] : List String) ∧
      check_vulnerability "xlodash" "4.17.15" 0 ≠ none := by
  refine ⟨by decide, by decide⟩

/-- Generalization of the table walk: a dependency whose name contains none
of the table's package names never matches. -/
theorem checkAgainst_eq_none_of_no_contains (nanos : Nat) (package version : String)
    (table : List (String × String × String × String × Option String))
    (h : ∀ e ∈ table, strContains package e.1 = false) :
    checkAgainst nanos package version table = none := by
  induction table with
  | nil => rfl
  | cons e rest ih =>
    obtain ⟨pkg, ver, sev, desc, fixed⟩ := e
    have he : strContains package pkg = false := h _ (List.mem_cons_self _ _)
    simp only [checkAgainst, he, Bool.false_and, Bool.false_eq_true, if_false]
    exact ih (fun e' he' => h e' (List.mem_cons_of_mem _ he'))

/-- C4, amended: for every dependency whose package name does not CONTAIN
(as a substring) any of the four table package names, `check_vulnerability`
returns no match, regardless of its version string; mere absence of the
name from the table is not enough, since matching is by substring
containment. -/
theorem c4_no_contained_name_no_match (package version : String) (nanos : Nat)
    (h : ∀ e ∈ known_vulnerable, strContains package e.1 = false) :
    check_vulnerability package version nanos = none :=
  checkAgainst_eq_none_of_no_contains nanos package version known_vulnerable h

/-- C4, witness: `leftpad` contains none of the table names, so it is never
flagged. -/
theorem c4_no_contained_name_no_match_witness :
    check_vulnerability "leftpad" "1.0.0" 0 = none :=
  c4_no_contained_name_no_match "leftpad" "1.0.0" 0 (by decide)

/-! ## Claim C5 -/

/-- C5: scanning a workspace whose `requirements.txt` pins
`lodash==4.17.15` produces exactly one match — the lodash advisory (HIGH,
fixed in 4.17.21) — and the report generator's suggestion maps `lodash` to
`4.17.21`, whatever the clock reads. -/
theorem c5_lodash_vulnerable_example (clock : Nat → Nat) :
    scan_for_vulnerabilities fsLodashOld clock "." ["requirements.txt"] =
        [⟨mkCveId (clock 0), "HIGH", "lodash", "4.17.15", "Prototype pollution",
          some "4.17.21"⟩] ∧
      lookupUpdate
          (buildUpdates (scan_for_vulnerabilities fsLodashOld clock "." ["requirements.txt"]))
          "lodash" = some "4.17.21" :=
  ⟨rfl, rfl⟩

/-! ## Claim C6 -/

/-- C6: a dependency `lodash==4.17.21` (exactly the fixed-in boundary
version) matches nothing — the per-dependency check returns no match and
the whole scan returns the empty list, whatever the clock reads. -/
theorem c6_lodash_boundary_no_match (clock : Nat → Nat) (nanos : Nat) :
    check_vulnerability "lodash" "4.17.21" nanos = none ∧
      scan_for_vulnerabilities fsLodashFixed clock "." ["requirements.txt"] = [] :=
  ⟨rfl, rfl⟩

/-! ## Claim C7 -/

/-- C7, counterexample: the report-write failure is NOT surfaced — the
report logs for a failed write are identical to those for a successful
write (the source discards the `fs::write` result), and they still claim
the detailed report was saved. -/
theorem c7_write_failure_swallowed :
    generate_report "." [vulnEx] false = generate_report "." [vulnEx] true ∧
      "\n  Detailed report saved: ./.builder-cache/security-report.json" ∈
        generate_report "." [vulnEx] false := by
  refine ⟨rfl, by decide⟩

/-- C7, amended: the scan results and report logs are computed from the
in-memory vulnerability list and returned to the caller regardless of the
report-write outcome — but the write failure is silently swallowed, not
surfaced: both `generate_report` and the whole `handle_pre_hook` response
are independent of the write outcome. -/
theorem c7_results_independent_of_write (fs : String → Option String) (clock : Nat → Nat)
    (id : Int) (params : Option Json) (w₁ w₂ : Bool) :
    (∀ workspace_root vulns,
        generate_report workspace_root vulns w₁ = generate_report workspace_root vulns w₂) ∧
      handle_pre_hook fs clock w₁ id params = handle_pre_hook fs clock w₂ id params :=
  ⟨fun _ _ => rfl, rfl⟩

/-! ## Claim C8 -/

/-- C8: whenever the request's `method` field is missing, not a string, or
not one of the three supported methods (all three cases collapse to a
method string outside that list), `handle_request` answers with the
JSON-RPC error object `{code: -32601, message: "Method not found"}`,
echoing the request's integer id (`0` when missing or not an integer). -/
theorem c8_unknown_method_error (fs : String → Option String) (clock : Nat → Nat)
    (writeOk : Bool) (request : Json)
    (h : ((request.index "method").asStr).getD "" ∉
      (["plugin.info", "build.pre_hook", "build.post_hook"] : List String)) :
    handle_request fs clock writeOk request =
      Json.obj [("jsonrpc", Json.str "2.0"),
        ("id", Json.num (((request.index "id").asI64).getD 0)),
        ("error", Json.obj [("code", Json.num (-32601)),
                            ("message", Json.str "Method not found")])] := by
  have h1 : ((request.index "method").asStr).getD "" ≠ "plugin.info" := by
    intro e; exact h (by simp [e])
  have h2 : ((request.index "method").asStr).getD "" ≠ "build.pre_hook" := by
    intro e; exact h (by simp [e])
  have h3 : ((request.index "method").asStr).getD "" ≠ "build.post_hook" := by
    intro e; exact h (by simp [e])
  simp only [handle_request, h1, h2, h3, if_false]
  rfl

/-- C8, witness: a request with method `frobnicate` and id 7 gets the
method-not-found error echoing id 7. -/
theorem c8_unknown_method_error_witness :
    handle_request emptyFs zeroClock true reqUnknown =
      Json.obj [("jsonrpc", Json.str "2.0"), ("id", Json.num 7),
        ("error", Json.obj [("code", Json.num (-32601)),
                            ("message", Json.str "Method not found")])] :=
  c8_unknown_method_error emptyFs zeroClock true reqUnknown (by decide)

/-! ## Claim C9 -/

/-- C9: `handle_pre_hook` answers EVERY input with a result object whose
`success` is `true` and whose `logs` is an array of strings — never a
JSON-RPC error object; and with `params` absent the scan is skipped
entirely, leaving only the initialization log line. -/
theorem c9_pre_hook_always_success (fs : String → Option String) (clock : Nat → Nat)
    (writeOk : Bool) (id : Int) (params : Option Json) :
    (∃ logs : List String, handle_pre_hook fs clock writeOk id params =
        Json.obj [("jsonrpc", Json.str "2.0"), ("id", Json.num id),
          ("result", Json.obj [("success", Json.bool true),
                               ("logs", Json.arr (logs.map Json.str))])]) ∧
      handle_pre_hook fs clock writeOk id none =
        Json.obj [("jsonrpc", Json.str "2.0"), ("id", Json.num id),
          ("result", Json.obj [("success", Json.bool true),
            ("logs", Json.arr [Json.str "[Security] Initializing security scan"])])] :=
  ⟨⟨pre_hook_logs fs clock writeOk params, rfl⟩, rfl⟩

/-! ## Claim C10 -/

/-- C10: `parse_dependency_line` returns `some (name, version)` exactly
when the trimmed line contains `==` and splitting it on `==` yields exactly
the two parts `name` and `version`; any other line — in particular
`a==b==c`, which splits into three parts — yields `none`. -/
theorem c10_parse_dependency_line_spec :
    (∀ line name version,
        parse_dependency_line line = some (name, version) ↔
          (strContains (rustTrim line) "==" = true ∧
            strSplitEq (rustTrim line) = [name, version])) ∧
      parse_dependency_line "a==b==c" = none := by
  constructor
  · intro line name version
    simp only [parse_dependency_line]
    by_cases hc : strContains (rustTrim line) "==" = true
    · simp only [hc, if_true, true_and]
      rcases hl : strSplitEq (rustTrim line) with _ | ⟨a, _ | ⟨b, _ | ⟨c, rest⟩⟩⟩ <;>
        simp [hl]
    · simp [hc]
  · decide

end ScanEvaluation

end BuilderSecurity
